import Mathlib

/-!
Verification of the request-normalize-enrich pipeline of the
reddit-research-skill repository (src/scripts/lib/composio_reddit.py and
src/scripts/lib/composio_twitter.py), shallowly embedded in Lean.

Python dictionaries are modelled as association lists over a JSON-like value
type `JVal`.  Dynamic-typing failure paths of the Python source (attribute
errors from calling `.get` on a non-dict, slicing a non-sliceable value,
arithmetic on non-numeric values, iterating a non-list) are modelled by
`Option`: `none` marks an input on which the Python code raises a type-level
exception or leaves the behaviour modelled here.  Raised application errors
(`raise ValueError`/`raise Exception`) are modelled with `Except String`.
-/

/-- JSON-like value: the model of a Python value as it appears in the
request/response dictionaries of the two modules. -/
inductive JVal where
  | null
  | bool (b : Bool)
  | num (n : Int)
  | str (s : String)
  | list (xs : List JVal)
  | obj (fields : List (String × JVal))

/-- A Python dict, modelled as an association list (keys unique by
construction; first match wins on lookup). -/
abbrev Dict := List (String × JVal)

/-- Key lookup in a dict: Python `k in d` / `d.get(k)` presence. -/
def dget : Dict → String → Option JVal
  | [], _ => none
  | (k', v) :: rest, k => if k' = k then some v else dget rest k

/-- Python `d.get(k, default)`. -/
def dgetD (d : Dict) (k : String) (default : JVal) : JVal :=
  (dget d k).getD default

/-- Python `d.get(k)` (default `None`). -/
def pyGet (d : Dict) (k : String) : JVal :=
  (dget d k).getD .null

/-- Python `d[k] = v`: replaces the value of an existing key in place,
appends a new key at the end (Python dicts preserve insertion order). -/
def dset : Dict → String → JVal → Dict
  | [], k, v => [(k, v)]
  | (k', v') :: rest, k, v =>
    if k' = k then (k, v) :: rest else (k', v') :: dset rest k v

mutual
/-- Structural/value equality of two values (Python `==` on the JSON data
handled by the modules; used to model dict-key lookup in the Twitter user
map). -/
def JVal.beq : JVal → JVal → Bool
  | .null, .null => true
  | .bool a, .bool b => a == b
  | .num a, .num b => a == b
  | .str a, .str b => a == b
  | .list a, .list b => beqList a b
  | .obj a, .obj b => beqObj a b
  | _, _ => false

def beqList : List JVal → List JVal → Bool
  | [], [] => true
  | a :: as, b :: bs => JVal.beq a b && beqList as bs
  | _, _ => false

def beqObj : List (String × JVal) → List (String × JVal) → Bool
  | [], [] => true
  | (k, v) :: as, (k2, v2) :: bs => k == k2 && JVal.beq v v2 && beqObj as bs
  | _, _ => false
end

/-- Python truthiness of a value. -/
def JVal.truthy : JVal → Bool
  | .null => false
  | .bool b => b
  | .num n => n != 0
  | .str s => s != ""
  | .list xs => !xs.isEmpty
  | .obj fs => !fs.isEmpty

/-- Python truthiness of a `d.get(k)` result (`None` when the key is
absent is falsy). -/
def truthyO : Option JVal → Bool
  | none => false
  | some v => v.truthy

/-- Python `not x` for an `Optional[str]` value: true iff the value is
`None` or the empty string. -/
def pyFalsyStr : Option String → Bool
  | none => true
  | some s => s == ""

mutual
/-- Python `repr` of a value, as interpolated inside f-strings for
non-string values. -/
def pyRepr : JVal → String
  | .null => "None"
  | .bool b => if b then "True" else "False"
  | .num n => toString n
  | .str s => "\x27" ++ s ++ "\x27"
  | .list xs => "[" ++ pyReprList xs ++ "]"
  | .obj fs => "\x7b" ++ pyReprObj fs ++ "\x7d"

def pyReprList : List JVal → String
  | [] => ""
  | [x] => pyRepr x
  | x :: xs => pyRepr x ++ ", " ++ pyReprList xs

def pyReprObj : List (String × JVal) → String
  | [] => ""
  | [(k, v)] => "\x27" ++ k ++ "\x27: " ++ pyRepr v
  | (k, v) :: fs => "\x27" ++ k ++ "\x27: " ++ pyRepr v ++ ", " ++ pyReprObj fs
end

/-- Python `str(x)` / f-string interpolation of a value. -/
def pyStr : JVal → String
  | .str s => s
  | v => pyRepr v

/-- The result of an `httpx` POST, as consumed by the two transport
functions: `response.ok`, `response.status_code`, `response.text`, and the
parsed JSON body `response.json()` (a dict in every modelled path). -/
structure HttpResponse where
  ok : Bool
  status : Int
  text : String
  json : Dict

namespace ComposioReddit

/-- The process environment as read by composio_reddit.py: the two
environment variables the module consults at call time. -/
structure Env where
  composio_api_key : Option String
  composio_user_id : Option String

/-- The exact message of the `ValueError` raised by
`get_composio_api_key` (composio_reddit.py line 18). -/
def apiKeyErrorMsg : String :=
  "COMPOSIO_API_KEY not set. Set COMPOSIO_API_KEY in your shell or ~/.openclaw/.env"

/-- Model of `get_composio_api_key` (composio_reddit.py lines 14-19):
`key = os.environ.get("COMPOSIO_API_KEY"); if not key: raise ValueError(...);
return key`. -/
def get_composio_api_key (env : Env) : Except String String :=
  let key := env.composio_api_key
  if pyFalsyStr key then .error apiKeyErrorMsg
  else .ok (key.getD "")

/-- Model of `get_user_id` (composio_reddit.py lines 22-24):
`os.environ.get("COMPOSIO_USER_ID", "pg-test-YOUR-USER-ID")`. -/
def get_user_id (env : Env) : String :=
  env.composio_user_id.getD "pg-test-YOUR-USER-ID"

/-- The request body built by `search_reddit` (composio_reddit.py lines
56-66): `{"userId": user_id, "input": {"query": query, "limit":
max_results}}`, plus `connectedAccountId` when `connection_id` is truthy. -/
def search_reddit_body (user_id query : String) (max_results : Int)
    (connection_id : Option String) : Dict :=
  let body : Dict :=
    [("userId", .str user_id),
     ("input", .obj [("query", .str query), ("limit", .num max_results)])]
  if pyFalsyStr connection_id then body
  else dset body "connectedAccountId" (.str (connection_id.getD ""))

/-- The response handling of `search_reddit` (composio_reddit.py lines
81-90): non-ok HTTP status raises `Exception(f"Composio {status}:
{text[:500]}")`; a JSON body with falsy `success` and truthy `error` raises
`Exception(f"Composio error: {error}")`; otherwise `result.get("data", {})`
is returned. -/
def search_reddit_result (resp : HttpResponse) : Except String JVal :=
  if !resp.ok then
    .error ("Composio " ++ toString resp.status ++ ": " ++ resp.text.take 500)
  else
    let result := resp.json
    if !truthyO (dget result "success") && truthyO (dget result "error") then
      .error ("Composio error: " ++ pyStr (pyGet result "error"))
    else
      .ok (dgetD result "data" (.obj []))

/-- The `"title" in item` branch of `parse_reddit_response`
(composio_reddit.py lines 111-122): the direct Reddit API format. -/
def parse_reddit_item_title (item : Dict) : Dict :=
  [("title", dgetD item "title" (.str "")),
   ("url", dgetD item "url"
      (.str ("https://reddit.com" ++ pyStr (dgetD item "permalink" (.str ""))))),
   ("score", dgetD item "score" (.num 0)),
   ("num_comments", dgetD item "num_comments" (.num 0)),
   ("author", dgetD item "author" (.str "")),
   ("subreddit", dgetD item "subreddit" (.str "")),
   ("created_utc", dgetD item "created_utc" (.num 0)),
   ("selftext", dgetD item "selftext" (.str ""))]

/-- The `elif "text" in item` branch of `parse_reddit_response`
(composio_reddit.py lines 123-134): the X-style format.  `none` marks the
paths where the Python code raises a type error (slicing a non-string
`text` value, `.get` on a non-dict `metrics` value); a list-valued `text`
(also sliceable in Python) is left unmodelled. -/
def parse_reddit_item_text (item : Dict) : Option Dict :=
  match dgetD item "text" (.str "") with
  | .str t =>
    match dgetD item "metrics" (.obj []) with
    | .obj m =>
      some
        [("title", .str (t.take 200)),
         ("url", dgetD item "url" (.str "")),
         ("score", dgetD m "likes" (.num 0)),
         ("num_comments", dgetD m "replies" (.num 0)),
         ("author", dgetD item "username" (dgetD item "author" (.str ""))),
         ("subreddit", dgetD item "subreddit" (.str "")),
         ("created_utc", dgetD item "created_at" (dgetD item "created_utc" (.str ""))),
         ("selftext", .str "")]
    | _ => none
  | _ => none

/-- The item loop of `parse_reddit_response` (composio_reddit.py lines
109-134): dispatch on `"title" in item` then `elif "text" in item`; items
matching neither are skipped.  `none` marks non-dict items, for which the
Python membership tests are left unmodelled. -/
def parse_reddit_items : List JVal → Option (List Dict)
  | [] => some []
  | item :: rest =>
    match item with
    | .obj d =>
      if (dget d "title").isSome then
        (parse_reddit_items rest).map (parse_reddit_item_title d :: ·)
      else if (dget d "text").isSome then
        (parse_reddit_item_text d).bind fun post =>
          (parse_reddit_items rest).map (post :: ·)
      else
        parse_reddit_items rest
    | _ => none

/-- The item-sequence extraction of `parse_reddit_response`
(composio_reddit.py lines 106-107): `data = response.get("data", response);
items = data if isinstance(data, list) else data.get("data", [])`.
`none` marks paths where Python raises (`.get` on a value that is neither
list nor dict) or iterates a non-list `items` value, left unmodelled. -/
def extract_items (response : Dict) : Option (List JVal) :=
  match dgetD response "data" (.obj response) with
  | .list xs => some xs
  | .obj d =>
    match dgetD d "data" (.list []) with
    | .list xs => some xs
    | _ => none
  | _ => none

/-- Model of `parse_reddit_response` (composio_reddit.py lines 93-136). -/
def parse_reddit_response (response : Dict) : Option (List Dict) :=
  (extract_items response).bind parse_reddit_items

/-- The loop body of `enrich_with_metrics` (composio_reddit.py lines
150-157): `score = post.get("score", 0); comments =
post.get("num_comments", 0); post["engagement"] = score + comments * 2`.
The mutated `post` is both the element appended to the output and the new
state of the caller's record.  `none` marks non-integer metric values,
whose Python arithmetic is left unmodelled. -/
def enrich_post (post : Dict) : Option Dict :=
  match dgetD post "score" (.num 0), dgetD post "num_comments" (.num 0) with
  | .num score, .num comments =>
    some (dset post "engagement" (.num (score + comments * 2)))
  | _, _ => none

/-- Model of `enrich_with_metrics` (composio_reddit.py lines 139-159), value level:
the sequence of (mutated) records in output order. -/
def enrich_with_metrics (posts : List Dict) : Option (List Dict) :=
  posts.mapM enrich_post

/-- Model of `enrich_with_metrics` at the reference level, making the in-place
mutation of composio_reddit.py lines 156-157 explicit: `heap` holds the
record objects, `posts` is the input list of references into it.  Each
iteration mutates the referenced record in the heap
(`post["engagement"] = engagement`) and appends the same reference to the
output (`enriched.append(post)`).  Returns the final heap and the output
reference list. -/
def enrich_with_metrics_refs (heap : List Dict) (posts : List Nat) :
    Option (List Dict × List Nat) :=
  match posts with
  | [] => some (heap, [])
  | i :: rest =>
    match heap[i]? with
    | none => none
    | some post =>
      match enrich_post post with
      | none => none
      | some post2 =>
        match enrich_with_metrics_refs (heap.set i post2) rest with
        | none => none
        | some (h, out) => some (h, i :: out)

/-- The request issued by `search_reddit_topic` (composio_reddit.py lines
186-197): credentials are resolved first (`if not api_key: api_key =
get_composio_api_key()`, `if not user_id: user_id = get_user_id()`), then
`search_reddit` builds the body from the resolved `user_id`, the query, the
unchanged `max_results` and the `connection_id`. -/
def search_reddit_topic_request (env : Env) (query : String)
    (max_results : Int) (api_key user_id connection_id : Option String) :
    Except String Dict :=
  match (if pyFalsyStr api_key then get_composio_api_key env
         else .ok (api_key.getD "")) with
  | .error e => .error e
  | .ok _ =>
    let uid := if pyFalsyStr user_id then get_user_id env else user_id.getD ""
    .ok (search_reddit_body uid query max_results connection_id)

/-- Model of `search_reddit_topic` (composio_reddit.py lines 162-202), with the HTTP
exchange abstracted by the `resp` parameter: resolve credentials, run the
transport response handling, parse, enrich.  The outer `Option` marks the
dynamic-typing paths left unmodelled (non-dict transport data, non-list
items, non-dict items, non-numeric metrics); the inner `Except` carries the
raised errors. -/
def search_reddit_topic (env : Env) (query : String) (max_results : Int)
    (api_key user_id connection_id : Option String) (resp : HttpResponse) :
    Option (Except String (List Dict)) :=
  match (if pyFalsyStr api_key then get_composio_api_key env
         else .ok (api_key.getD "")) with
  | .error e => some (.error e)
  | .ok _ =>
    match search_reddit_result resp with
    | .error e => some (.error e)
    | .ok data =>
      match data with
      | .obj respDict =>
        match parse_reddit_response respDict with
        | none => none
        | some posts =>
          match enrich_with_metrics posts with
          | none => none
          | some enriched => some (.ok enriched)
      | _ => none

end ComposioReddit

namespace ComposioTwitter

/-- The process environment as read by composio_twitter.py. -/
structure Env where
  composio_api_key : Option String
  composio_user_id : Option String

/-- The exact message of the `ValueError` raised by
`get_composio_api_key` (composio_twitter.py line 18). -/
def apiKeyErrorMsg : String :=
  "COMPOSIO_API_KEY not set. Set COMPOSIO_API_KEY in your shell or ~/.openclaw/.env"

/-- Model of `get_composio_api_key` (composio_twitter.py lines 14-19). -/
def get_composio_api_key (env : Env) : Except String String :=
  let key := env.composio_api_key
  if pyFalsyStr key then .error apiKeyErrorMsg
  else .ok (key.getD "")

/-- Model of `get_user_id` (composio_twitter.py lines 22-24). -/
def get_user_id (env : Env) : String :=
  env.composio_user_id.getD "pg-test-YOUR-USER-ID"

/-- The request body built by `search_twitter` (composio_twitter.py lines
56-65): `{"userId": user_id, "input": {"query": query, "max_results":
max_results}}`, plus `connectedAccountId` when `connection_id` is truthy. -/
def search_twitter_body (user_id query : String) (max_results : Int)
    (connection_id : Option String) : Dict :=
  let body : Dict :=
    [("userId", .str user_id),
     ("input", .obj [("query", .str query), ("max_results", .num max_results)])]
  if pyFalsyStr connection_id then body
  else dset body "connectedAccountId" (.str (connection_id.getD ""))

/-- The response handling of `search_twitter` (composio_twitter.py lines
79-88); identical to the Reddit transport. -/
def search_twitter_result (resp : HttpResponse) : Except String JVal :=
  if !resp.ok then
    .error ("Composio " ++ toString resp.status ++ ": " ++ resp.text.take 500)
  else
    let result := resp.json
    if !truthyO (dget result "success") && truthyO (dget result "error") then
      .error ("Composio error: " ++ pyStr (pyGet result "error"))
    else
      .ok (dgetD result "data" (.obj []))

/-- First-pass mapping of one tweet item (composio_twitter.py lines
107-124): every item is appended, with all fields defaulted; there is no
shape dispatch.  `none` marks a non-dict `public_metrics` value, on which
the chained `.get` of the Python code raises. -/
def parse_twitter_item (item : Dict) : Option Dict :=
  match dgetD item "public_metrics" (.obj []) with
  | .obj pm =>
    some
      [("id", dgetD item "id" (.str "")),
       ("text", dgetD item "text" (.str "")),
       ("author_id", dgetD item "author_id" (.str "")),
       ("username", .str ""),
       ("name", .str ""),
       ("created_at", dgetD item "created_at" (.str "")),
       ("metrics", .obj
          [("likes", dgetD pm "like_count" (.num 0)),
           ("retweets", dgetD pm "retweet_count" (.num 0)),
           ("replies", dgetD pm "reply_count" (.num 0)),
           ("impressions", dgetD pm "impression_count" (.num 0))]),
       ("urls", .list []),
       ("mentions", .list []),
       ("hashtags", .list []),
       ("tweet_url", .str "")]
  | _ => none

/-- The first-pass loop of `parse_twitter_response` (composio_twitter.py
lines 106-124): every item of the sequence is mapped and appended.  `none`
marks non-dict items (the Python `.get` calls raise there). -/
def parse_twitter_items : List JVal → Option (List Dict)
  | [] => some []
  | item :: rest =>
    match item with
    | .obj d =>
      (parse_twitter_item d).bind fun tweet =>
        (parse_twitter_items rest).map (tweet :: ·)
    | _ => none

/-- The item-sequence extraction of `parse_twitter_response`
(composio_twitter.py lines 103-104), identical to the Reddit module. -/
def extract_items (response : Dict) : Option (List JVal) :=
  match dgetD response "data" (.obj response) with
  | .list xs => some xs
  | .obj d =>
    match dgetD d "data" (.list []) with
    | .list xs => some xs
    | _ => none
  | _ => none

/-- The user map of `parse_twitter_response` (composio_twitter.py line
128): `user_map = {u.get("id"): u for u in users}`, as the association
list of (key, user) pairs in comprehension order.  `none` marks a
non-dict user entry. -/
def build_user_map : List JVal → Option (List (JVal × Dict))
  | [] => some []
  | .obj u :: rest => (build_user_map rest).map ((pyGet u "id", u) :: ·)
  | _ :: _ => none

/-- Lookup `user_map.get(k, {})` (composio_twitter.py line 131): in a dict
comprehension a later duplicate key overwrites an earlier one, so the last
matching pair wins. -/
def user_map_get (m : List (JVal × Dict)) (k : JVal) : Dict :=
  match m.reverse.find? (fun p => JVal.beq p.1 k) with
  | some p => p.2
  | none => []

/-- The second-pass loop body of `parse_twitter_response`
(composio_twitter.py lines 130-140): fill `username` and `name` from the
user found under the author id, then build `tweet_url` as
`f"https://x.com/{username}/status/{tweet['id']}"` with `username`
defaulting to "unknown". -/
def fill_user (user_map : List (JVal × Dict)) (tweet : Dict) : Dict :=
  let user := user_map_get user_map (pyGet tweet "author_id")
  let t1 := dset tweet "username" (dgetD user "username" (.str ""))
  let t2 := dset t1 "name" (dgetD user "name" (.str ""))
  let username := dgetD user "username" (.str "unknown")
  dset t2 "tweet_url"
    (.str ("https://x.com/" ++ pyStr username ++ "/status/" ++ pyStr (pyGet t2 "id")))

/-- Model of `parse_twitter_response` (composio_twitter.py lines 91-142): first
pass maps every item; the second pass resolves user info from
`response.get("includes", {}).get("users", [])`.  `none` marks the
dynamic-typing paths left unmodelled (non-dict `includes`, non-list
`users`, non-dict user entries). -/
def parse_twitter_response (response : Dict) : Option (List Dict) :=
  (extract_items response).bind fun items =>
  (parse_twitter_items items).bind fun tweets =>
  match dgetD response "includes" (.obj []) with
  | .obj inc =>
    match dgetD inc "users" (.list []) with
    | .list users =>
      (build_user_map users).map fun um => tweets.map (fill_user um)
    | _ => none
  | _ => none

/-- The loop body of `enrich_tweets` (composio_twitter.py lines 148-152):
`m = tweet.get("metrics", {}); engagement = m.get("likes", 0) +
m.get("retweets", 0) * 2 + m.get("replies", 0); tweet["engagement"] =
engagement`.  `none` marks a non-dict `metrics` value or non-integer
metric values, whose Python behaviour is left unmodelled. -/
def enrich_tweet (tweet : Dict) : Option Dict :=
  match dgetD tweet "metrics" (.obj []) with
  | .obj m =>
    match dgetD m "likes" (.num 0), dgetD m "retweets" (.num 0),
          dgetD m "replies" (.num 0) with
    | .num likes, .num retweets, .num replies =>
      some (dset tweet "engagement" (.num (likes + retweets * 2 + replies)))
    | _, _, _ => none
  | _ => none

/-- Model of `enrich_tweets` (composio_twitter.py lines 145-153), value level. -/
def enrich_tweets (tweets : List Dict) : Option (List Dict) :=
  tweets.mapM enrich_tweet

/-- The request issued by `search_twitter_topic` (composio_twitter.py
lines 178-192): credentials are resolved, then `max_results =
max(max_results, 10)` (line 184, "Composio requires minimum 10 results"),
then `search_twitter` builds the body. -/
def search_twitter_topic_request (env : Env) (query : String)
    (max_results : Int) (api_key user_id connection_id : Option String) :
    Except String Dict :=
  match (if pyFalsyStr api_key then get_composio_api_key env
         else .ok (api_key.getD "")) with
  | .error e => .error e
  | .ok _ =>
    let uid := if pyFalsyStr user_id then get_user_id env else user_id.getD ""
    .ok (search_twitter_body uid query (max max_results 10) connection_id)

/-- Model of `search_twitter_topic` (composio_twitter.py lines 156-197), with the
HTTP exchange abstracted by the `resp` parameter. -/
def search_twitter_topic (env : Env) (query : String) (max_results : Int)
    (api_key user_id connection_id : Option String) (resp : HttpResponse) :
    Option (Except String (List Dict)) :=
  match (if pyFalsyStr api_key then get_composio_api_key env
         else .ok (api_key.getD "")) with
  | .error e => some (.error e)
  | .ok _ =>
    match search_twitter_result resp with
    | .error e => some (.error e)
    | .ok data =>
      match data with
      | .obj respDict =>
        match parse_twitter_response respDict with
        | none => none
        | some tweets =>
          match enrich_tweets tweets with
          | none => none
          | some enriched => some (.ok enriched)
      | _ => none

end ComposioTwitter

/-- The key sequence of a dict, in insertion order. -/
def keysOf (d : Dict) : List String := d.map Prod.fst

/-- The declared schema of a normalized Reddit post (spec `NormalizedPost`,
before enrichment). -/
def redditSchema : List String :=
  ["title", "url", "score", "num_comments", "author", "subreddit",
   "created_utc", "selftext"]

/-- The declared schema of a normalized tweet (spec `NormalizedTweet`,
before enrichment). -/
def twitterSchema : List String :=
  ["id", "text", "author_id", "username", "name", "created_at", "metrics",
   "urls", "mentions", "hashtags", "tweet_url"]

/-- The declared schema of the nested `metrics` object of a normalized
tweet. -/
def metricsSchema : List String :=
  ["likes", "retweets", "replies", "impressions"]

/-- The field `k` of the `input` object of a request body (the
result-limit field of the outgoing request lives at `body["input"][k]`). -/
def input_field (body : Dict) (k : String) : Option JVal :=
  match dget body "input" with
  | some (.obj d) => dget d k
  | _ => none

/-- Model of `enrich_tweets` at the reference level, making the in-place mutation of
composio_twitter.py lines 151-152 explicit, exactly as
`ComposioReddit.enrich_with_metrics_refs` does for the Reddit enricher:
each iteration mutates the referenced record in the heap
(`tweet["engagement"] = engagement`) and appends the same reference to the
output (`enriched.append(tweet)`). -/
def ComposioTwitter.enrich_tweets_refs (heap : List Dict) (tweets : List Nat) :
    Option (List Dict × List Nat) :=
  match tweets with
  | [] => some (heap, [])
  | i :: rest =>
    match heap[i]? with
    | none => none
    | some tweet =>
      match ComposioTwitter.enrich_tweet tweet with
      | none => none
      | some tweet2 =>
        match ComposioTwitter.enrich_tweets_refs (heap.set i tweet2) rest with
        | none => none
        | some (h, out) => some (h, i :: out)

/-- Generic reference-level in-place update loop shared by the two
enrichers: same recursion as `ComposioReddit.enrich_with_metrics_refs` and
`ComposioTwitter.enrich_tweets_refs`, with the loop body abstracted. -/
def enrichRefsLoop (step : Dict → Option Dict) (heap : List Dict) :
    List Nat → Option (List Dict × List Nat)
  | [] => some (heap, [])
  | i :: rest =>
    match heap[i]? with
    | none => none
    | some post =>
      match step post with
      | none => none
      | some post2 =>
        match enrichRefsLoop step (heap.set i post2) rest with
        | none => none
        | some (h, out) => some (h, i :: out)

theorem dget_dset_ne (d : Dict) (k k' : String) (v : JVal) (h : k' ≠ k) :
    dget (dset d k v) k' = dget d k' := by
  induction d with
  | nil => simp [dset, dget, Ne.symm h]
  | cons p rest ih =>
    obtain ⟨k2, v2⟩ := p
    by_cases hk : k2 = k
    · subst hk
      simp [dset, dget, Ne.symm h]
    · simp [dset, dget, hk, ih]

theorem dset_dset_self (d : Dict) (k : String) (v w : JVal) :
    dset (dset d k v) k w = dset d k w := by
  induction d with
  | nil => simp [dset]
  | cons p rest ih =>
    obtain ⟨k2, v2⟩ := p
    by_cases hk : k2 = k
    · subst hk
      simp [dset]
    · simp [dset, hk, ih]

theorem keysOf_dset_mem (d : Dict) (k : String) (v : JVal) :
    k ∈ keysOf d → keysOf (dset d k v) = keysOf d := by
  induction d with
  | nil => intro h; simp [keysOf] at h
  | cons p rest ih =>
    obtain ⟨k2, v2⟩ := p
    intro h
    by_cases hk : k2 = k
    · subst hk
      simp [dset, keysOf]
    · have h2 : k ∈ keysOf rest := by
        simp only [keysOf, List.map_cons, List.mem_cons] at h
        rcases h with h | h
        · exact absurd h.symm hk
        · exact h
      simp only [dset, if_neg hk, keysOf, List.map_cons]
      rw [show List.map Prod.fst (dset rest k v) = keysOf (dset rest k v) from rfl,
          ih h2]
      rfl

theorem enrich_with_metrics_refs_eq_loop (posts : List Nat) (heap : List Dict) :
    ComposioReddit.enrich_with_metrics_refs heap posts =
      enrichRefsLoop ComposioReddit.enrich_post heap posts := by
  induction posts generalizing heap with
  | nil => rfl
  | cons i rest ih =>
    simp only [ComposioReddit.enrich_with_metrics_refs, enrichRefsLoop, ih]

theorem enrich_tweets_refs_eq_loop (tweets : List Nat) (heap : List Dict) :
    ComposioTwitter.enrich_tweets_refs heap tweets =
      enrichRefsLoop ComposioTwitter.enrich_tweet heap tweets := by
  induction tweets generalizing heap with
  | nil => rfl
  | cons i rest ih =>
    simp only [ComposioTwitter.enrich_tweets_refs, enrichRefsLoop, ih]

theorem enrich_post_idem (p q : Dict)
    (h : ComposioReddit.enrich_post p = some q) :
    ComposioReddit.enrich_post q = some q := by
  unfold ComposioReddit.enrich_post at h ⊢
  split at h
  next score comments hs hc =>
    injection h with h
    subst h
    have h1 : dgetD (dset p "engagement" (.num (score + comments * 2))) "score"
        (.num 0) = JVal.num score := by
      unfold dgetD at hs ⊢
      rw [dget_dset_ne _ _ _ _ (by decide)]
      exact hs
    have h2 : dgetD (dset p "engagement" (.num (score + comments * 2)))
        "num_comments" (.num 0) = JVal.num comments := by
      unfold dgetD at hc ⊢
      rw [dget_dset_ne _ _ _ _ (by decide)]
      exact hc
    rw [h1, h2]
    simp only [dset_dset_self]
  next => exact absurd h (by simp)

theorem enrich_tweet_idem (p q : Dict)
    (h : ComposioTwitter.enrich_tweet p = some q) :
    ComposioTwitter.enrich_tweet q = some q := by
  unfold ComposioTwitter.enrich_tweet at h ⊢
  split at h
  next m hm =>
    split at h
    next likes retweets replies hl hr hp =>
      injection h with h
      subst h
      have h0 : dgetD (dset p "engagement" (.num (likes + retweets * 2 + replies)))
          "metrics" (.obj []) = JVal.obj m := by
        unfold dgetD at hm ⊢
        rw [dget_dset_ne _ _ _ _ (by decide)]
        exact hm
      simp only [h0, hl, hr, hp, dset_dset_self]
    next => exact absurd h (by simp)
  next => exact absurd h (by simp)

theorem enrichRefsLoop_spec (step : Dict → Option Dict)
    (hstep : ∀ p q, step p = some q → step q = some q) :
    ∀ (posts : List Nat) (heap heap2 : List Dict) (out : List Nat),
      enrichRefsLoop step heap posts = some (heap2, out) →
      out = posts ∧
      (∀ j, j ∉ posts → heap2[j]? = heap[j]?) ∧
      (∀ j, j ∈ posts → heap2[j]? = (heap[j]?).bind step) := by
  intro posts
  induction posts with
  | nil =>
    intro heap heap2 out h
    unfold enrichRefsLoop at h
    injection h with h
    injection h with h1 h2
    subst h1
    subst h2
    simp
  | cons i rest ih =>
    intro heap heap2 out h
    unfold enrichRefsLoop at h
    cases hpi : heap[i]? with
    | none => simp [hpi] at h
    | some post =>
      simp only [hpi] at h
      cases hst : step post with
      | none => simp [hst] at h
      | some post2 =>
        simp only [hst] at h
        cases hrec : enrichRefsLoop step (heap.set i post2) rest with
        | none => simp [hrec] at h
        | some pr =>
          obtain ⟨h3, out3⟩ := pr
          simp only [hrec] at h
          injection h with h
          injection h with hh ho
          subst hh
          subst ho
          obtain ⟨ho3, huntouched, htouched⟩ := ih _ _ _ hrec
          have hlen : i < heap.length := (List.getElem?_eq_some.mp hpi).1
          have hseti : (heap.set i post2)[i]? = some post2 := by
            rw [List.getElem?_set_self]
            simp [hlen]
          refine ⟨by rw [ho3], ?_, ?_⟩
          · intro j hj
            have hji : j ≠ i := fun hc => hj (hc ▸ List.mem_cons_self i rest)
            have hjr : j ∉ rest := fun hc => hj (List.mem_cons_of_mem i hc)
            rw [huntouched j hjr, List.getElem?_set_ne (Ne.symm hji)]
          · intro j hj
            rcases List.mem_cons.mp hj with hji | hjr
            · subst hji
              by_cases hjr2 : j ∈ rest
              · rw [htouched j hjr2, hseti, hpi]
                simp only [Option.some_bind]
                rw [hstep post post2 hst, hst]
              · rw [huntouched j hjr2, hseti, hpi]
                simp only [Option.some_bind]
                exact hst.symm
            · by_cases hji2 : j = i
              · subst hji2
                rw [htouched j hjr, hseti, hpi]
                simp only [Option.some_bind]
                rw [hstep post post2 hst, hst]
              · rw [htouched j hjr, List.getElem?_set_ne (Ne.symm hji2)]

theorem parse_reddit_item_title_keys (d : Dict) :
    keysOf (ComposioReddit.parse_reddit_item_title d) = redditSchema := rfl

theorem parse_reddit_item_text_keys (d post : Dict)
    (h : ComposioReddit.parse_reddit_item_text d = some post) :
    keysOf post = redditSchema := by
  unfold ComposioReddit.parse_reddit_item_text at h
  split at h
  next t ht =>
    split at h
    next m hm =>
      injection h with h
      subst h
      rfl
    next => exact absurd h (by simp)
  next => exact absurd h (by simp)

theorem parse_reddit_items_keys (items : List JVal) :
    ∀ out : List Dict, ComposioReddit.parse_reddit_items items = some out →
      ∀ p ∈ out, keysOf p = redditSchema := by
  induction items with
  | nil =>
    intro out h
    unfold ComposioReddit.parse_reddit_items at h
    injection h with h
    subst h
    simp
  | cons item rest ih =>
    intro out h
    unfold ComposioReddit.parse_reddit_items at h
    split at h
    next d =>
      split at h
      next =>
        obtain ⟨out2, hrec, hout⟩ := Option.map_eq_some'.mp h
        subst hout
        intro p hp
        rcases List.mem_cons.mp hp with hp | hp
        · subst hp; rfl
        · exact ih out2 hrec p hp
      next =>
        split at h
        next =>
          obtain ⟨post, htxt, h2⟩ := Option.bind_eq_some.mp h
          obtain ⟨out2, hrec, hout⟩ := Option.map_eq_some'.mp h2
          subst hout
          intro p hp
          rcases List.mem_cons.mp hp with hp | hp
          · rw [hp]; exact parse_reddit_item_text_keys d post htxt
          · exact ih out2 hrec p hp
        next => exact ih out h
    next => exact absurd h (by simp)

theorem parse_twitter_item_fields (d t : Dict)
    (h : ComposioTwitter.parse_twitter_item d = some t) :
    keysOf t = twitterSchema ∧
    (∃ m, dget t "metrics" = some (.obj m) ∧ keysOf m = metricsSchema) ∧
    dget t "urls" = some (.list []) ∧
    dget t "mentions" = some (.list []) ∧
    dget t "hashtags" = some (.list []) := by
  unfold ComposioTwitter.parse_twitter_item at h
  split at h
  next pm hpm =>
    injection h with h
    subst h
    exact ⟨rfl, ⟨_, rfl, rfl⟩, rfl, rfl, rfl⟩
  next => exact absurd h (by simp)

theorem parse_twitter_items_spec (items : List JVal) :
    ∀ out : List Dict, ComposioTwitter.parse_twitter_items items = some out →
      out.length = items.length ∧
      ∀ t ∈ out, ∃ d, ComposioTwitter.parse_twitter_item d = some t := by
  induction items with
  | nil =>
    intro out h
    unfold ComposioTwitter.parse_twitter_items at h
    injection h with h
    subst h
    simp
  | cons item rest ih =>
    intro out h
    unfold ComposioTwitter.parse_twitter_items at h
    split at h
    next d =>
      obtain ⟨tweet, hitem, h2⟩ := Option.bind_eq_some.mp h
      obtain ⟨out2, hrec, hout⟩ := Option.map_eq_some'.mp h2
      subst hout
      obtain ⟨hlen, hall⟩ := ih out2 hrec
      refine ⟨by simp [hlen], ?_⟩
      intro t ht
      rcases List.mem_cons.mp ht with ht | ht
      · exact ⟨d, by rw [← ht] at hitem; exact hitem⟩
      · exact hall t ht
    next => exact absurd h (by simp)

theorem fill_user_keys (um : List (JVal × Dict)) (t : Dict)
    (h : keysOf t = twitterSchema) :
    keysOf (ComposioTwitter.fill_user um t) = keysOf t := by
  simp only [ComposioTwitter.fill_user]
  have h1 : "username" ∈ keysOf t := by rw [h]; decide
  rw [keysOf_dset_mem _ _ _
        (by rw [keysOf_dset_mem _ _ _ (by rw [keysOf_dset_mem _ _ _ h1, h]; decide),
                keysOf_dset_mem _ _ _ h1, h]
            decide),
      keysOf_dset_mem _ _ _ (by rw [keysOf_dset_mem _ _ _ h1, h]; decide),
      keysOf_dset_mem _ _ _ h1]

theorem fill_user_dget_ne (um : List (JVal × Dict)) (t : Dict) (k : String)
    (h1 : k ≠ "username") (h2 : k ≠ "name") (h3 : k ≠ "tweet_url") :
    dget (ComposioTwitter.fill_user um t) k = dget t k := by
  simp only [ComposioTwitter.fill_user]
  rw [dget_dset_ne _ _ _ _ h3, dget_dset_ne _ _ _ _ h2, dget_dset_ne _ _ _ _ h1]

theorem parse_twitter_response_spec (resp : Dict) (out : List Dict)
    (h : ComposioTwitter.parse_twitter_response resp = some out) :
    ∀ t ∈ out, keysOf t = twitterSchema ∧
      (∃ m, dget t "metrics" = some (.obj m) ∧ keysOf m = metricsSchema) ∧
      dget t "urls" = some (.list []) ∧
      dget t "mentions" = some (.list []) ∧
      dget t "hashtags" = some (.list []) := by
  unfold ComposioTwitter.parse_twitter_response at h
  obtain ⟨items, hitems, h2⟩ := Option.bind_eq_some.mp h
  obtain ⟨tweets, htweets, h3⟩ := Option.bind_eq_some.mp h2
  intro t ht
  have hmem : ∃ t0 ∈ tweets, ∃ um, t = ComposioTwitter.fill_user um t0 := by
    split at h3
    next inc =>
      split at h3
      next users =>
        obtain ⟨um, hum, hout⟩ := Option.map_eq_some'.mp h3
        subst hout
        obtain ⟨t0, ht0, hft⟩ := List.mem_map.mp ht
        exact ⟨t0, ht0, um, hft.symm⟩
      next => exact absurd h3 (by simp)
    next => exact absurd h3 (by simp)
  obtain ⟨t0, ht0, um, hft⟩ := hmem
  obtain ⟨d, hd⟩ := (parse_twitter_items_spec items tweets htweets).2 t0 ht0
  obtain ⟨hk, ⟨m, hm, hmk⟩, hu, hmen, hhash⟩ := parse_twitter_item_fields d t0 hd
  subst hft
  refine ⟨by rw [fill_user_keys um t0 hk, hk], ⟨m, ?_, hmk⟩, ?_, ?_, ?_⟩
  · rw [fill_user_dget_ne um t0 "metrics" (by decide) (by decide) (by decide)]
    exact hm
  · rw [fill_user_dget_ne um t0 "urls" (by decide) (by decide) (by decide)]
    exact hu
  · rw [fill_user_dget_ne um t0 "mentions" (by decide) (by decide) (by decide)]
    exact hmen
  · rw [fill_user_dget_ne um t0 "hashtags" (by decide) (by decide) (by decide)]
    exact hhash

/-- C1: for the Twitter pipeline, for every requested result limit L, the
result-limit field (`input.max_results`) of the outgoing request body
equals 10 when L < 10 and equals L exactly when L >= 10; for the Reddit
pipeline the outgoing `input.limit` field equals L unchanged (no floor). -/
theorem C1_result_limit (envR : ComposioReddit.Env) (envT : ComposioTwitter.Env)
    (query : String) (L : Int) (api_key user_id connection_id : Option String)
    (bodyR bodyT : Dict)
    (hR : ComposioReddit.search_reddit_topic_request envR query L api_key
            user_id connection_id = .ok bodyR)
    (hT : ComposioTwitter.search_twitter_topic_request envT query L api_key
            user_id connection_id = .ok bodyT) :
    input_field bodyR "limit" = some (.num L) ∧
    input_field bodyT "max_results" = some (.num (if L < 10 then 10 else L)) := by
  have hmax : max L 10 = if L < 10 then 10 else L := by omega
  constructor
  · unfold ComposioReddit.search_reddit_topic_request at hR
    split at hR
    next => exact absurd hR (by simp)
    next =>
      injection hR with hR
      subst hR
      simp only [ComposioReddit.search_reddit_body]
      split
      · rfl
      · rfl
  · unfold ComposioTwitter.search_twitter_topic_request at hT
    split at hT
    next => exact absurd hT (by simp)
    next =>
      injection hT with hT
      subst hT
      rw [← hmax]
      simp only [ComposioTwitter.search_twitter_body]
      split
      · rfl
      · rfl

/-- Witness for C1: requested limit 3 with a configured key; the Reddit
body carries limit 3, the Twitter body carries 10. -/
theorem C1_result_limit_witness :
    input_field [("userId", JVal.str "pg-test-YOUR-USER-ID"),
                 ("input", JVal.obj [("query", JVal.str "q"), ("limit", JVal.num 3)])]
        "limit" = some (JVal.num 3) ∧
    input_field [("userId", JVal.str "pg-test-YOUR-USER-ID"),
                 ("input", JVal.obj [("query", JVal.str "q"), ("max_results", JVal.num 10)])]
        "max_results" = some (JVal.num (if (3 : Int) < 10 then 10 else 3)) :=
  C1_result_limit ⟨some "k", none⟩ ⟨some "k", none⟩ "q" 3 none none none _ _ rfl rfl

/-- C2: a parsed JSON body with `success = false` and a non-empty `error`
field makes both transports raise the provider error with the error text
verbatim; the whole pipeline fails with that error for every such
response, so normalization is never run on it; conversely, when `error` is
empty or absent this check raises nothing and the transport returns
normally. -/
theorem C2_provider_error (resp : HttpResponse) (e : String)
    (hok : resp.ok = true)
    (hsucc : dget resp.json "success" = some (.bool false))
    (herr : dget resp.json "error" = some (.str e))
    (hne : e ≠ "") :
    ComposioReddit.search_reddit_result resp = .error ("Composio error: " ++ e) ∧
    ComposioTwitter.search_twitter_result resp = .error ("Composio error: " ++ e) ∧
    (∀ envR query L api_key user_id connection_id,
      pyFalsyStr api_key = false →
      ComposioReddit.search_reddit_topic envR query L api_key user_id
          connection_id resp = some (.error ("Composio error: " ++ e))) ∧
    (∀ envT query L api_key user_id connection_id,
      pyFalsyStr api_key = false →
      ComposioTwitter.search_twitter_topic envT query L api_key user_id
          connection_id resp = some (.error ("Composio error: " ++ e))) ∧
    (∀ r2 : HttpResponse, r2.ok = true →
      dget r2.json "error" = none ∨ dget r2.json "error" = some (.str "") →
      ComposioReddit.search_reddit_result r2 = .ok (dgetD r2.json "data" (.obj [])) ∧
      ComposioTwitter.search_twitter_result r2 = .ok (dgetD r2.json "data" (.obj []))) := by
  have hcond : (!truthyO (dget resp.json "success") &&
      truthyO (dget resp.json "error")) = true := by
    rw [hsucc, herr]
    simp [truthyO, JVal.truthy, hne]
  have hredd : ComposioReddit.search_reddit_result resp =
      .error ("Composio error: " ++ e) := by
    unfold ComposioReddit.search_reddit_result
    rw [hok]
    simp only [Bool.not_true, Bool.false_eq_true, if_false, hcond, if_true]
    rw [show pyGet resp.json "error" = JVal.str e by
          unfold pyGet; rw [herr]; rfl]
    rfl
  have htwit : ComposioTwitter.search_twitter_result resp =
      .error ("Composio error: " ++ e) := by
    unfold ComposioTwitter.search_twitter_result
    rw [hok]
    simp only [Bool.not_true, Bool.false_eq_true, if_false, hcond, if_true]
    rw [show pyGet resp.json "error" = JVal.str e by
          unfold pyGet; rw [herr]; rfl]
    rfl
  refine ⟨hredd, htwit, ?_, ?_, ?_⟩
  · intro envR query L api_key user_id connection_id hak
    unfold ComposioReddit.search_reddit_topic
    rw [hak]
    simp only [Bool.false_eq_true, if_false, hredd]
  · intro envT query L api_key user_id connection_id hak
    unfold ComposioTwitter.search_twitter_topic
    rw [hak]
    simp only [Bool.false_eq_true, if_false, htwit]
  · intro r2 hok2 herr2
    have hcond2 : (!truthyO (dget r2.json "success") &&
        truthyO (dget r2.json "error")) = false := by
      rcases herr2 with h2 | h2 <;>
        rw [h2] <;> simp [truthyO, JVal.truthy]
    constructor
    · unfold ComposioReddit.search_reddit_result
      rw [hok2]
      simp only [Bool.not_true, Bool.false_eq_true, if_false, hcond2]
    · unfold ComposioTwitter.search_twitter_result
      rw [hok2]
      simp only [Bool.not_true, Bool.false_eq_true, if_false, hcond2]

/-- Witness for C2: the spec example `{"success": false, "error": "bad
query"}` raises `Composio error: bad query` everywhere, and a body with an
empty `error` raises nothing. -/
theorem C2_provider_error_witness :
    ComposioReddit.search_reddit_result
        ⟨true, 200, "", [("success", .bool false), ("error", .str "bad query")]⟩ =
      .error ("Composio error: " ++ "bad query") ∧
    ComposioTwitter.search_twitter_result
        ⟨true, 200, "", [("success", .bool false), ("error", .str "bad query")]⟩ =
      .error ("Composio error: " ++ "bad query") ∧
    (∀ envR query L api_key user_id connection_id,
      pyFalsyStr api_key = false →
      ComposioReddit.search_reddit_topic envR query L api_key user_id connection_id
          ⟨true, 200, "", [("success", .bool false), ("error", .str "bad query")]⟩ =
        some (.error ("Composio error: " ++ "bad query"))) ∧
    (∀ envT query L api_key user_id connection_id,
      pyFalsyStr api_key = false →
      ComposioTwitter.search_twitter_topic envT query L api_key user_id connection_id
          ⟨true, 200, "", [("success", .bool false), ("error", .str "bad query")]⟩ =
        some (.error ("Composio error: " ++ "bad query"))) ∧
    (∀ r2 : HttpResponse, r2.ok = true →
      dget r2.json "error" = none ∨ dget r2.json "error" = some (.str "") →
      ComposioReddit.search_reddit_result r2 = .ok (dgetD r2.json "data" (.obj [])) ∧
      ComposioTwitter.search_twitter_result r2 = .ok (dgetD r2.json "data" (.obj []))) :=
  C2_provider_error ⟨true, 200, "", [("success", .bool false), ("error", .str "bad query")]⟩
    "bad query" rfl rfl rfl (by decide)

/-- Counterexample to C3 as stated: for the successful response whose
parsed body is `{"success": true, "other": 1}` (no `data` field), the
transport returns the empty object, not the whole parsed body. -/
theorem C3_counterexample :
    ComposioReddit.search_reddit_result
        ⟨true, 200, "", [("success", .bool true), ("other", .num 1)]⟩ =
      .ok (.obj []) ∧
    ComposioTwitter.search_twitter_result
        ⟨true, 200, "", [("success", .bool true), ("other", .num 1)]⟩ =
      .ok (.obj []) ∧
    dget [("success", JVal.bool true), ("other", JVal.num 1)] "data" = none ∧
    JVal.obj [] ≠ JVal.obj [("success", JVal.bool true), ("other", JVal.num 1)] := by
  refine ⟨rfl, rfl, rfl, ?_⟩
  simp

/-- C3 (amended): for every successful (non-error) transport response, the
transport returns the value of the `data` field of the parsed JSON body
when that field is present, and returns the empty object `{}` (not the
whole parsed body) when the `data` field is absent. -/
theorem C3_success_data_field (resp : HttpResponse) (v : JVal)
    (hok : resp.ok = true)
    (hchk : (!truthyO (dget resp.json "success") &&
      truthyO (dget resp.json "error")) = false) :
    (dget resp.json "data" = some v →
      ComposioReddit.search_reddit_result resp = .ok v ∧
      ComposioTwitter.search_twitter_result resp = .ok v) ∧
    (dget resp.json "data" = none →
      ComposioReddit.search_reddit_result resp = .ok (.obj []) ∧
      ComposioTwitter.search_twitter_result resp = .ok (.obj [])) := by
  have hok2 : ComposioReddit.search_reddit_result resp =
      .ok (dgetD resp.json "data" (.obj [])) := by
    unfold ComposioReddit.search_reddit_result
    rw [hok]
    simp only [Bool.not_true, Bool.false_eq_true, if_false, hchk]
  have hok3 : ComposioTwitter.search_twitter_result resp =
      .ok (dgetD resp.json "data" (.obj [])) := by
    unfold ComposioTwitter.search_twitter_result
    rw [hok]
    simp only [Bool.not_true, Bool.false_eq_true, if_false, hchk]
  constructor
  · intro hd
    rw [hok2, hok3]
    unfold dgetD
    rw [hd]
    exact ⟨rfl, rfl⟩
  · intro hd
    rw [hok2, hok3]
    unfold dgetD
    rw [hd]
    exact ⟨rfl, rfl⟩

/-- Witness for C3 (amended): a body with `data` present yields that
value; a body without `data` yields the empty object. -/
theorem C3_success_data_field_witness :
    (dget [("data", JVal.num 7)] "data" = some (JVal.num 7) →
      ComposioReddit.search_reddit_result ⟨true, 200, "", [("data", .num 7)]⟩ =
        .ok (JVal.num 7) ∧
      ComposioTwitter.search_twitter_result ⟨true, 200, "", [("data", .num 7)]⟩ =
        .ok (JVal.num 7)) ∧
    (dget [("data", JVal.num 7)] "data" = none →
      ComposioReddit.search_reddit_result ⟨true, 200, "", [("data", .num 7)]⟩ =
        .ok (.obj []) ∧
      ComposioTwitter.search_twitter_result ⟨true, 200, "", [("data", .num 7)]⟩ =
        .ok (.obj [])) :=
  C3_success_data_field ⟨true, 200, "", [("data", .num 7)]⟩ (JVal.num 7) rfl rfl

/-- C4: the API-key resolver fails (with the `COMPOSIO_API_KEY not set`
error) iff the environment variable is unset or empty; the single error
message literally names the missing variable (`COMPOSIO_API_KEY`) and the
expected config file location (`~/.openclaw/.env`); the failure is
independent of the HTTP response, so it happens before any network
activity; a non-empty value is returned verbatim. -/
theorem C4_api_key_resolution (envR : ComposioReddit.Env)
    (envT : ComposioTwitter.Env) :
    ((∃ e, ComposioReddit.get_composio_api_key envR = .error e) ↔
      (envR.composio_api_key = none ∨ envR.composio_api_key = some "")) ∧
    (∀ e, ComposioReddit.get_composio_api_key envR = .error e →
      e = ComposioReddit.apiKeyErrorMsg) ∧
    (∃ a b, ComposioReddit.apiKeyErrorMsg = a ++ "COMPOSIO_API_KEY" ++ b) ∧
    (∃ a b, ComposioReddit.apiKeyErrorMsg = a ++ "~/.openclaw/.env" ++ b) ∧
    (∀ s, s ≠ "" → envR.composio_api_key = some s →
      ComposioReddit.get_composio_api_key envR = .ok s) ∧
    (envR.composio_api_key = none ∨ envR.composio_api_key = some "" →
      ∀ query L user_id connection_id (resp : HttpResponse),
        ComposioReddit.search_reddit_topic envR query L none user_id
            connection_id resp = some (.error ComposioReddit.apiKeyErrorMsg)) ∧
    ((∃ e, ComposioTwitter.get_composio_api_key envT = .error e) ↔
      (envT.composio_api_key = none ∨ envT.composio_api_key = some "")) ∧
    (∀ e, ComposioTwitter.get_composio_api_key envT = .error e →
      e = ComposioTwitter.apiKeyErrorMsg) ∧
    (∀ s, s ≠ "" → envT.composio_api_key = some s →
      ComposioTwitter.get_composio_api_key envT = .ok s) ∧
    (envT.composio_api_key = none ∨ envT.composio_api_key = some "" →
      ∀ query L user_id connection_id (resp : HttpResponse),
        ComposioTwitter.search_twitter_topic envT query L none user_id
            connection_id resp = some (.error ComposioTwitter.apiKeyErrorMsg)) := by
  have hfalsy : ∀ o : Option String,
      pyFalsyStr o = true ↔ (o = none ∨ o = some "") := by
    intro o
    cases o with
    | none => simp [pyFalsyStr]
    | some s => simp [pyFalsyStr]
  have hresR : ∀ h : pyFalsyStr envR.composio_api_key = true,
      ComposioReddit.get_composio_api_key envR =
        .error ComposioReddit.apiKeyErrorMsg := by
    intro h
    simp only [ComposioReddit.get_composio_api_key]
    rw [h]
    rfl
  have hresT : ∀ h : pyFalsyStr envT.composio_api_key = true,
      ComposioTwitter.get_composio_api_key envT =
        .error ComposioTwitter.apiKeyErrorMsg := by
    intro h
    simp only [ComposioTwitter.get_composio_api_key]
    rw [h]
    rfl
  refine ⟨?_, ?_, ⟨"", ?_⟩, ⟨"COMPOSIO_API_KEY not set. Set COMPOSIO_API_KEY in your shell or ", ?_⟩,
    ?_, ?_, ?_, ?_, ?_, ?_⟩
  · constructor
    · intro ⟨e, he⟩
      rw [← hfalsy]
      by_contra hfl
      simp only [ComposioReddit.get_composio_api_key] at he
      rw [Bool.not_eq_true] at hfl
      rw [hfl] at he
      exact absurd he (by simp)
    · intro h
      exact ⟨_, hresR ((hfalsy _).mpr h)⟩
  · intro e he
    simp only [ComposioReddit.get_composio_api_key] at he
    by_cases hfl : pyFalsyStr envR.composio_api_key = true
    · rw [hfl] at he
      simp only [if_true] at he
      injection he with he
      exact he.symm
    · rw [Bool.not_eq_true] at hfl
      rw [hfl] at he
      exact absurd he (by simp)
  · exact ⟨" not set. Set COMPOSIO_API_KEY in your shell or ~/.openclaw/.env", rfl⟩
  · exact ⟨"", rfl⟩
  · intro s hs hsome
    simp only [ComposioReddit.get_composio_api_key]
    rw [hsome]
    simp [pyFalsyStr, hs]
  · intro h query L user_id connection_id resp
    have h2 : pyFalsyStr (none : Option String) = true := rfl
    unfold ComposioReddit.search_reddit_topic
    rw [h2]
    simp only [if_true, hresR ((hfalsy _).mpr h)]
  · constructor
    · intro ⟨e, he⟩
      rw [← hfalsy]
      by_contra hfl
      simp only [ComposioTwitter.get_composio_api_key] at he
      rw [Bool.not_eq_true] at hfl
      rw [hfl] at he
      exact absurd he (by simp)
    · intro h
      exact ⟨_, hresT ((hfalsy _).mpr h)⟩
  · intro e he
    simp only [ComposioTwitter.get_composio_api_key] at he
    by_cases hfl : pyFalsyStr envT.composio_api_key = true
    · rw [hfl] at he
      simp only [if_true] at he
      injection he with he
      exact he.symm
    · rw [Bool.not_eq_true] at hfl
      rw [hfl] at he
      exact absurd he (by simp)
  · intro s hs hsome
    simp only [ComposioTwitter.get_composio_api_key]
    rw [hsome]
    simp [pyFalsyStr, hs]
  · intro h query L user_id connection_id resp
    have h2 : pyFalsyStr (none : Option String) = true := rfl
    unfold ComposioTwitter.search_twitter_topic
    rw [h2]
    simp only [if_true, hresT ((hfalsy _).mpr h)]

/-- Witness for C4: with `COMPOSIO_API_KEY` unset the resolver fails and
the whole pipeline fails with the configuration message for an arbitrary
response; with it set to `"secret"` the resolver returns `"secret"`. -/
theorem C4_api_key_resolution_witness :
    ((∃ e, ComposioReddit.get_composio_api_key ⟨none, none⟩ = .error e) ↔
      ((none : Option String) = none ∨ (none : Option String) = some "")) ∧
    (ComposioReddit.get_composio_api_key ⟨some "secret", none⟩ = .ok "secret") ∧
    (ComposioReddit.search_reddit_topic ⟨none, none⟩ "q" 5 none none none
        ⟨true, 200, "", []⟩ = some (.error ComposioReddit.apiKeyErrorMsg)) ∧
    (ComposioTwitter.search_twitter_topic ⟨none, none⟩ "q" 5 none none none
        ⟨true, 200, "", []⟩ = some (.error ComposioTwitter.apiKeyErrorMsg)) := by
  refine ⟨(C4_api_key_resolution ⟨none, none⟩ ⟨none, none⟩).1, ?_, ?_, ?_⟩
  · exact (C4_api_key_resolution ⟨some "secret", none⟩ ⟨none, none⟩).2.2.2.2.1
      "secret" (by decide) rfl
  · exact (C4_api_key_resolution ⟨none, none⟩ ⟨none, none⟩).2.2.2.2.2.1
      (Or.inl rfl) "q" 5 none none ⟨true, 200, "", []⟩
  · exact (C4_api_key_resolution ⟨none, none⟩ ⟨none, none⟩).2.2.2.2.2.2.2.2.2
      (Or.inl rfl) "q" 5 none none ⟨true, 200, "", []⟩

/-- C5: the enrichers deterministically add the integer `engagement` field
computed as score + num_comments * 2 for Reddit records and likes +
retweets * 2 + replies (impressions excluded) for Twitter records; in
particular score=10, num_comments=3 gives 16 and likes=10, retweets=3,
replies=2 gives 18. -/
theorem C5_engagement_formula (post tweet m : Dict)
    (score comments likes retweets replies : Int)
    (hs : dget post "score" = some (.num score))
    (hc : dget post "num_comments" = some (.num comments))
    (hm : dget tweet "metrics" = some (.obj m))
    (hl : dget m "likes" = some (.num likes))
    (hr : dget m "retweets" = some (.num retweets))
    (hp : dget m "replies" = some (.num replies)) :
    ComposioReddit.enrich_post post =
      some (dset post "engagement" (.num (score + comments * 2))) ∧
    ComposioTwitter.enrich_tweet tweet =
      some (dset tweet "engagement" (.num (likes + retweets * 2 + replies))) ∧
    ComposioReddit.enrich_with_metrics
        [[("score", .num 10), ("num_comments", .num 3)]] =
      some [[("score", .num 10), ("num_comments", .num 3),
             ("engagement", .num 16)]] ∧
    ComposioTwitter.enrich_tweets
        [[("metrics", .obj [("likes", .num 10), ("retweets", .num 3),
                            ("replies", .num 2)])]] =
      some [[("metrics", .obj [("likes", .num 10), ("retweets", .num 3),
                               ("replies", .num 2)]),
             ("engagement", .num 18)]] := by
  refine ⟨?_, ?_, rfl, rfl⟩
  · unfold ComposioReddit.enrich_post dgetD
    rw [hs, hc]
    rfl
  · unfold ComposioTwitter.enrich_tweet dgetD
    rw [hm]
    simp only [Option.getD_some]
    rw [hl, hr, hp]
    rfl

/-- Witness for C5 at the spec's concrete records. -/
theorem C5_engagement_formula_witness :
    ComposioReddit.enrich_post [("score", .num 10), ("num_comments", .num 3)] =
      some (dset [("score", .num 10), ("num_comments", .num 3)] "engagement"
        (.num (10 + 3 * 2))) ∧
    ComposioTwitter.enrich_tweet
        [("metrics", .obj [("likes", .num 10), ("retweets", .num 3),
                           ("replies", .num 2)])] =
      some (dset [("metrics", .obj [("likes", .num 10), ("retweets", .num 3),
                                    ("replies", .num 2)])] "engagement"
        (.num (10 + 3 * 2 + 2))) ∧
    ComposioReddit.enrich_with_metrics
        [[("score", .num 10), ("num_comments", .num 3)]] =
      some [[("score", .num 10), ("num_comments", .num 3),
             ("engagement", .num 16)]] ∧
    ComposioTwitter.enrich_tweets
        [[("metrics", .obj [("likes", .num 10), ("retweets", .num 3),
                            ("replies", .num 2)])]] =
      some [[("metrics", .obj [("likes", .num 10), ("retweets", .num 3),
                               ("replies", .num 2)]),
             ("engagement", .num 18)]] :=
  C5_engagement_formula
    [("score", .num 10), ("num_comments", .num 3)]
    [("metrics", .obj [("likes", .num 10), ("retweets", .num 3),
                       ("replies", .num 2)])]
    [("likes", .num 10), ("retweets", .num 3), ("replies", .num 2)]
    10 3 10 3 2 rfl rfl rfl rfl rfl rfl

/-- Counterexample to C6 as stated: the Twitter normalizer does not drop
an item that has neither a `title` nor a `text` key — the empty item is
mapped to a fully defaulted record and is present in the output (the
output has length 1, not 0). -/
theorem C6_counterexample :
    dget ([] : Dict) "title" = none ∧
    dget ([] : Dict) "text" = none ∧
    (ComposioTwitter.parse_twitter_response [("data", .list [.obj []])]).map
        List.length = some 1 :=
  ⟨rfl, rfl, rfl⟩

/-- C6 (amended): in the Reddit normalizer, every item that contains
neither a `title` key nor a `text` key is absent from the output sequence
and raises no error; the Twitter normalizer, by contrast, drops nothing —
its output has exactly one record per input item (unmatched items
included, mapped with defaulted fields). -/
theorem C6_unmatched_items (d : Dict) (rest items : List JVal)
    (out : List Dict)
    (h1 : dget d "title" = none) (h2 : dget d "text" = none)
    (h3 : ComposioTwitter.parse_twitter_items items = some out) :
    ComposioReddit.parse_reddit_items (.obj d :: rest) =
      ComposioReddit.parse_reddit_items rest ∧
    out.length = items.length := by
  constructor
  · simp [ComposioReddit.parse_reddit_items, h1, h2]
  · exact (parse_twitter_items_spec items out h3).1

/-- Witness for C6 (amended): a keyless item is dropped by the Reddit
normalizer but kept (defaulted) by the Twitter one. -/
theorem C6_unmatched_items_witness :
    ComposioReddit.parse_reddit_items
        [.obj [("x", .num 1)], .obj [("title", .str "T")]] =
      ComposioReddit.parse_reddit_items [.obj [("title", .str "T")]] ∧
    ([[("id", JVal.str ""), ("text", JVal.str ""), ("author_id", JVal.str ""),
       ("username", JVal.str ""), ("name", JVal.str ""),
       ("created_at", JVal.str ""),
       ("metrics", JVal.obj [("likes", JVal.num 0), ("retweets", JVal.num 0),
                             ("replies", JVal.num 0), ("impressions", JVal.num 0)]),
       ("urls", JVal.list []), ("mentions", JVal.list []),
       ("hashtags", JVal.list []), ("tweet_url", JVal.str "")]] : List Dict).length =
      ([JVal.obj []] : List JVal).length :=
  C6_unmatched_items [("x", .num 1)] [.obj [("title", .str "T")]] [.obj []]
    _ rfl rfl rfl

/-- Counterexample to C7 as stated: enriching the single record
`{"score": 1}` mutates the caller's record in place — after the call the
heap cell referenced by the input list holds
`{"score": 1, "engagement": 1}`, so the caller's input record is not left
unchanged. -/
theorem C7_counterexample :
    ComposioReddit.enrich_with_metrics_refs [[("score", JVal.num 1)]] [0] =
      some ([[("score", JVal.num 1), ("engagement", JVal.num 1)]], [0]) ∧
    ([[("score", JVal.num 1), ("engagement", JVal.num 1)]] : List Dict) ≠
      [[("score", JVal.num 1)]] := by
  refine ⟨rfl, ?_⟩
  simp

/-- C7 (amended): each enricher returns a new list whose elements are the
very references of the input list (the same record objects, not copies);
each referenced record is updated in place with the `engagement` field
(so the caller's input records change accordingly), and records not
referenced by the input list are untouched. -/
theorem C7_enrich_in_place (heapR heapR2 heapT heapT2 : List Dict)
    (posts tweets outR outT : List Nat)
    (hR : ComposioReddit.enrich_with_metrics_refs heapR posts =
      some (heapR2, outR))
    (hT : ComposioTwitter.enrich_tweets_refs heapT tweets =
      some (heapT2, outT)) :
    (outR = posts ∧
     (∀ j, j ∉ posts → heapR2[j]? = heapR[j]?) ∧
     (∀ j, j ∈ posts →
       heapR2[j]? = (heapR[j]?).bind ComposioReddit.enrich_post)) ∧
    (outT = tweets ∧
     (∀ j, j ∉ tweets → heapT2[j]? = heapT[j]?) ∧
     (∀ j, j ∈ tweets →
       heapT2[j]? = (heapT[j]?).bind ComposioTwitter.enrich_tweet)) := by
  rw [enrich_with_metrics_refs_eq_loop] at hR
  rw [enrich_tweets_refs_eq_loop] at hT
  exact ⟨enrichRefsLoop_spec _ enrich_post_idem posts heapR heapR2 outR hR,
         enrichRefsLoop_spec _ enrich_tweet_idem tweets heapT heapT2 outT hT⟩

/-- Witness for C7 (amended) on one-record heaps. -/
theorem C7_enrich_in_place_witness :
    (([0] : List Nat) = [0] ∧
     (∀ j, j ∉ ([0] : List Nat) →
       ([[("score", JVal.num 2), ("engagement", JVal.num 2)]] : List Dict)[j]? =
         ([[("score", JVal.num 2)]] : List Dict)[j]?) ∧
     (∀ j, j ∈ ([0] : List Nat) →
       ([[("score", JVal.num 2), ("engagement", JVal.num 2)]] : List Dict)[j]? =
         (([[("score", JVal.num 2)]] : List Dict)[j]?).bind
           ComposioReddit.enrich_post)) ∧
    (([0] : List Nat) = [0] ∧
     (∀ j, j ∉ ([0] : List Nat) →
       ([[("metrics", JVal.obj []), ("engagement", JVal.num 0)]] : List Dict)[j]? =
         ([[("metrics", JVal.obj [])]] : List Dict)[j]?) ∧
     (∀ j, j ∈ ([0] : List Nat) →
       ([[("metrics", JVal.obj []), ("engagement", JVal.num 0)]] : List Dict)[j]? =
         (([[("metrics", JVal.obj [])]] : List Dict)[j]?).bind
           ComposioTwitter.enrich_tweet)) :=
  C7_enrich_in_place [[("score", JVal.num 2)]] _ [[("metrics", JVal.obj [])]] _
    [0] [0] _ _ rfl rfl

/-- C8: every record produced by a normalizer has exactly the declared
schema fields (NormalizedPost for Reddit; NormalizedTweet with the nested
metrics keys and always-empty urls/mentions/hashtags for Twitter); for
minimal items all optional fields come out defaulted to empty string, zero
or empty list, and no error is raised for the missing optional fields. -/
theorem C8_schema_fields (respR respT : Dict) (outR outT : List Dict)
    (hR : ComposioReddit.parse_reddit_response respR = some outR)
    (hT : ComposioTwitter.parse_twitter_response respT = some outT) :
    (∀ p ∈ outR, keysOf p = redditSchema) ∧
    (∀ t ∈ outT, keysOf t = twitterSchema ∧
      (∃ m, dget t "metrics" = some (.obj m) ∧ keysOf m = metricsSchema) ∧
      dget t "urls" = some (.list []) ∧
      dget t "mentions" = some (.list []) ∧
      dget t "hashtags" = some (.list [])) ∧
    ComposioReddit.parse_reddit_items [.obj [("title", .str "T")]] =
      some [[("title", .str "T"), ("url", .str "https://reddit.com"),
             ("score", .num 0), ("num_comments", .num 0), ("author", .str ""),
             ("subreddit", .str ""), ("created_utc", .num 0),
             ("selftext", .str "")]] ∧
    ComposioTwitter.parse_twitter_items [.obj []] =
      some [[("id", .str ""), ("text", .str ""), ("author_id", .str ""),
             ("username", .str ""), ("name", .str ""), ("created_at", .str ""),
             ("metrics", .obj [("likes", .num 0), ("retweets", .num 0),
                               ("replies", .num 0), ("impressions", .num 0)]),
             ("urls", .list []), ("mentions", .list []), ("hashtags", .list []),
             ("tweet_url", .str "")]] := by
  refine ⟨?_, parse_twitter_response_spec respT outT hT, rfl, rfl⟩
  unfold ComposioReddit.parse_reddit_response at hR
  obtain ⟨items, hx, hp⟩ := Option.bind_eq_some.mp hR
  exact parse_reddit_items_keys items outR hp

/-- Witness for C8 on one-item responses for both platforms. -/
theorem C8_schema_fields_witness :
    (∀ p ∈ ([[("title", JVal.str "T"), ("url", JVal.str "https://reddit.com"),
              ("score", JVal.num 0), ("num_comments", JVal.num 0),
              ("author", JVal.str ""), ("subreddit", JVal.str ""),
              ("created_utc", JVal.num 0), ("selftext", JVal.str "")]] :
        List Dict), keysOf p = redditSchema) ∧
    (∀ t ∈ ([[("id", JVal.str ""), ("text", JVal.str ""),
              ("author_id", JVal.str ""), ("username", JVal.str ""),
              ("name", JVal.str ""), ("created_at", JVal.str ""),
              ("metrics", JVal.obj [("likes", JVal.num 0),
                                    ("retweets", JVal.num 0),
                                    ("replies", JVal.num 0),
                                    ("impressions", JVal.num 0)]),
              ("urls", JVal.list []), ("mentions", JVal.list []),
              ("hashtags", JVal.list []),
              ("tweet_url", JVal.str "https://x.com/unknown/status/")]] :
        List Dict), keysOf t = twitterSchema ∧
      (∃ m, dget t "metrics" = some (.obj m) ∧ keysOf m = metricsSchema) ∧
      dget t "urls" = some (.list []) ∧
      dget t "mentions" = some (.list []) ∧
      dget t "hashtags" = some (.list [])) ∧
    ComposioReddit.parse_reddit_items [.obj [("title", .str "T")]] =
      some [[("title", .str "T"), ("url", .str "https://reddit.com"),
             ("score", .num 0), ("num_comments", .num 0), ("author", .str ""),
             ("subreddit", .str ""), ("created_utc", .num 0),
             ("selftext", .str "")]] ∧
    ComposioTwitter.parse_twitter_items [.obj []] =
      some [[("id", .str ""), ("text", .str ""), ("author_id", .str ""),
             ("username", .str ""), ("name", .str ""), ("created_at", .str ""),
             ("metrics", .obj [("likes", .num 0), ("retweets", .num 0),
                               ("replies", .num 0), ("impressions", .num 0)]),
             ("urls", .list []), ("mentions", .list []), ("hashtags", .list []),
             ("tweet_url", .str "")]] :=
  C8_schema_fields [("data", .list [.obj [("title", .str "T")]])]
    [("data", .list [.obj []])] _ _ rfl rfl

/-- C9: an item given to the Reddit normalizer that has a `title` key is
mapped with the Reddit-native branch even when it also has a `text` key;
the social-post branch applies only when `title` is absent and `text` is
present. -/
theorem C9_title_branch_priority (d : Dict) (rest : List JVal) :
    ((dget d "title").isSome = true →
      ComposioReddit.parse_reddit_items (.obj d :: rest) =
        (ComposioReddit.parse_reddit_items rest).map
          (ComposioReddit.parse_reddit_item_title d :: ·)) ∧
    (dget d "title" = none → (dget d "text").isSome = true →
      ComposioReddit.parse_reddit_items (.obj d :: rest) =
        (ComposioReddit.parse_reddit_item_text d).bind fun post =>
          (ComposioReddit.parse_reddit_items rest).map (post :: ·)) := by
  constructor
  · intro h1
    simp [ComposioReddit.parse_reddit_items, h1]
  · intro h1 h2
    simp [ComposioReddit.parse_reddit_items, h1, h2]

/-- Witness for C9: an item with both `title` and `text` takes the title
branch; an item with `text` only takes the social-post branch. -/
theorem C9_title_branch_priority_witness :
    ((dget [("title", JVal.str "T"), ("text", JVal.str "X")] "title").isSome
        = true ∧
      ComposioReddit.parse_reddit_items
          [.obj [("title", .str "T"), ("text", .str "X")]] =
        (ComposioReddit.parse_reddit_items []).map
          (ComposioReddit.parse_reddit_item_title
            [("title", .str "T"), ("text", .str "X")] :: ·)) ∧
    (ComposioReddit.parse_reddit_items [.obj [("text", .str "X")]] =
      (ComposioReddit.parse_reddit_item_text [("text", .str "X")]).bind
        fun post =>
          (ComposioReddit.parse_reddit_items []).map (post :: ·)) :=
  ⟨⟨rfl, (C9_title_branch_priority
      [("title", .str "T"), ("text", .str "X")] []).1 rfl⟩,
    (C9_title_branch_priority [("text", .str "X")] []).2 rfl rfl⟩

/-- C10: passing the empty string explicitly for `api_key` (or `user_id`)
is treated as an absent override: the pipelines behave exactly as with no
override (falling back to the environment lookup), and with the
environment variable also unset the empty api_key override produces the
missing-key configuration error instead of using `""` as the
credential. -/
theorem C10_empty_override (envR : ComposioReddit.Env)
    (envT : ComposioTwitter.Env) (query : String) (L : Int)
    (api_key user_id connection_id : Option String) (resp : HttpResponse) :
    ComposioReddit.search_reddit_topic envR query L (some "") user_id
        connection_id resp =
      ComposioReddit.search_reddit_topic envR query L none user_id
        connection_id resp ∧
    ComposioReddit.search_reddit_topic_request envR query L (some "") user_id
        connection_id =
      ComposioReddit.search_reddit_topic_request envR query L none user_id
        connection_id ∧
    ComposioReddit.search_reddit_topic_request envR query L api_key (some "")
        connection_id =
      ComposioReddit.search_reddit_topic_request envR query L api_key none
        connection_id ∧
    ComposioTwitter.search_twitter_topic envT query L (some "") user_id
        connection_id resp =
      ComposioTwitter.search_twitter_topic envT query L none user_id
        connection_id resp ∧
    ComposioTwitter.search_twitter_topic_request envT query L (some "") user_id
        connection_id =
      ComposioTwitter.search_twitter_topic_request envT query L none user_id
        connection_id ∧
    ComposioTwitter.search_twitter_topic_request envT query L api_key (some "")
        connection_id =
      ComposioTwitter.search_twitter_topic_request envT query L api_key none
        connection_id ∧
    (∀ u, ComposioReddit.search_reddit_topic ⟨none, u⟩ query L (some "")
        user_id connection_id resp =
      some (.error ComposioReddit.apiKeyErrorMsg)) ∧
    (∀ u, ComposioTwitter.search_twitter_topic ⟨none, u⟩ query L (some "")
        user_id connection_id resp =
      some (.error ComposioTwitter.apiKeyErrorMsg)) := by
  refine ⟨rfl, rfl, ?_, rfl, rfl, ?_, ?_, ?_⟩
  · unfold ComposioReddit.search_reddit_topic_request
    rfl
  · unfold ComposioTwitter.search_twitter_topic_request
    rfl
  · intro u
    rfl
  · intro u
    rfl
